import Mathlib

/-!
Verification of the deepwell authentication/session subsystem and its
request-dispatch layer, shallowly embedded from the Rust sources
(src/session/manager.rs, deepwell-rpc/src/server.rs, deepwell-rpc/src/api.rs).

The database-backed tables (login_attempts, sessions) are embedded as lists
inside an explicit state record; store-assigned identifiers are modelled by
a counter in that state, and the store-assigned insertion timestamp by an
integer parameter passed to the inserting operation.  A Rust panic is
modelled as the value none of an Option result.
-/

namespace Deepwell

/-- Row of the login_attempts table (struct LoginAttempt in session/manager.rs).
The DateTime column attempted_at is embedded as an integer timestamp. -/
structure LoginAttempt where
  id : Nat
  user_id : Option Nat
  username_or_email : Option String
  remote_address : Option String
  success : Bool
  attempted_at : Int
deriving DecidableEq

/-- Row of the sessions table (struct Session in session/manager.rs). -/
structure Session where
  id : Nat
  user_id : Nat
  login_attempt_id : Nat
deriving DecidableEq

/-- The persistent store reachable through the PgConnection: the two tables
together with the sequences that assign fresh identifiers. -/
structure DbState where
  rows : List LoginAttempt
  nextId : Nat
  sessions : List Session
  nextSessionId : Nat
deriving DecidableEq

/-- The error enum of the deepwell crate (the variants relevant here:
Error::AuthenticationFailed and Error::UserNotFound). -/
inductive Error where
  | authenticationFailed
  | userNotFound
deriving DecidableEq

/-- SessionManager::add_login_attempt.  The Rust function logs, then inserts
one NewLoginAttempt row and returns the store-assigned login_attempt_id.
Inside the logging block, when user_id is None the code calls
username_or_email.expect(...), which panics when that is also None; the
panic is the none result.  now is the timestamp the store assigns to the
inserted row. -/
def add_login_attempt (st : DbState) (now : Int) (user_id : Option Nat)
    (username_or_email : Option String) (remote_address : Option String)
    (success : Bool) : Option (Nat × DbState) :=
  match user_id, username_or_email with
  | none, none => none
  | _, _ =>
      let row : LoginAttempt :=
        { id := st.nextId, user_id := user_id,
          username_or_email := username_or_email,
          remote_address := remote_address, success := success,
          attempted_at := now }
      some (st.nextId,
        { st with rows := st.rows ++ [row], nextId := st.nextId + 1 })

/-- SessionManager::set_login_success: an UPDATE setting success = true on
every row whose login_attempt_id matches, returning Ok(()) regardless of
how many rows matched. -/
def set_login_success (st : DbState) (login_attempt_id : Nat) :
    Except Error Unit × DbState :=
  (Except.ok (),
    { st with rows := st.rows.map fun r =>
        if r.id = login_attempt_id then { r with success := true } else r })

/-- The ORDER BY attempted_at DESC ordering used by the attempt queries. -/
def attemptedAtDesc (a b : LoginAttempt) : Prop :=
  b.attempted_at ≤ a.attempted_at

instance : DecidableRel attemptedAtDesc := fun a b =>
  inferInstanceAs (Decidable (b.attempted_at ≤ a.attempted_at))

instance : IsTotal LoginAttempt attemptedAtDesc :=
  ⟨fun a b => le_total b.attempted_at a.attempted_at⟩

instance : IsTrans LoginAttempt attemptedAtDesc :=
  ⟨fun _ _ _ hab hbc => le_trans hbc hab⟩

/-- SessionManager::get_login_attempts: filter attempted_at > since, filter
user_id = id, order by attempted_at descending, limit 100.  The SQL sort is
embedded as an insertion sort under the attemptedAtDesc relation. -/
def get_login_attempts (st : DbState) (user_id : Nat) (since : Int) :
    List LoginAttempt :=
  (List.insertionSort attemptedAtDesc
      ((st.rows.filter fun r => decide (since < r.attempted_at)).filter
        fun r => decide (r.user_id = some user_id))).take 100

/-- SessionManager::get_all_login_attempts: as get_login_attempts but
without the user filter. -/
def get_all_login_attempts (st : DbState) (since : Int) :
    List LoginAttempt :=
  (List.insertionSort attemptedAtDesc
      (st.rows.filter fun r => decide (since < r.attempted_at))).take 100

/-- C1: every call to add_login_attempt that satisfies its contract (at
least one identity input present) inserts exactly one LoginAttempt row —
regardless of the success flag or of whether a user id was resolved — and
returns the store-assigned identifier of that newly inserted row. -/
theorem add_login_attempt_inserts_one_row (st : DbState) (now : Int)
    (uid : Option Nat) (name addr : Option String) (succ : Bool)
    (h : uid.isSome = true ∨ name.isSome = true) :
    ∃ row : LoginAttempt,
      add_login_attempt st now uid name addr succ =
        some (row.id,
          { st with rows := st.rows ++ [row], nextId := st.nextId + 1 }) ∧
      row.id = st.nextId ∧ row.user_id = uid ∧
      row.username_or_email = name ∧ row.remote_address = addr ∧
      row.success = succ ∧ row.attempted_at = now := by
  match uid, name with
  | none, none => simp [Option.isSome] at h
  | some u, nm =>
      exact ⟨{ id := st.nextId, user_id := some u, username_or_email := nm,
               remote_address := addr, success := succ, attempted_at := now },
             rfl, rfl, rfl, rfl, rfl, rfl, rfl⟩
  | none, some n =>
      exact ⟨{ id := st.nextId, user_id := none,
               username_or_email := some n,
               remote_address := addr, success := succ, attempted_at := now },
             rfl, rfl, rfl, rfl, rfl, rfl, rfl⟩

/-- Witness for C1 at a concrete store and arguments. -/
theorem add_login_attempt_inserts_one_row_example :
    ∃ row : LoginAttempt,
      add_login_attempt ⟨[], 0, [], 0⟩ 5 (some 3) none (some "1.2.3.4") false =
        some (row.id,
          { (⟨[], 0, [], 0⟩ : DbState) with
              rows := ([] : List LoginAttempt) ++ [row], nextId := 0 + 1 }) ∧
      row.id = 0 ∧ row.user_id = some 3 ∧
      row.username_or_email = none ∧ row.remote_address = some "1.2.3.4" ∧
      row.success = false ∧ row.attempted_at = 5 :=
  add_login_attempt_inserts_one_row ⟨[], 0, [], 0⟩ 5 (some 3) none
    (some "1.2.3.4") false (Or.inl rfl)

/-- C5: a call with neither identity input reaches the panic branch (the
expect on username_or_email), modelled as the none result, rather than any
recoverable return value; under the documented precondition that at least
one identity input is present, the panic branch is never reached. -/
theorem add_login_attempt_contract (st : DbState) (now : Int)
    (addr : Option String) (succ : Bool) :
    add_login_attempt st now none none addr succ = none ∧
    ∀ (uid : Option Nat) (name : Option String),
      uid.isSome = true ∨ name.isSome = true →
      (add_login_attempt st now uid name addr succ).isSome = true := by
  refine ⟨rfl, fun uid name h => ?_⟩
  match uid, name with
  | none, none => simp [Option.isSome] at h
  | some u, _ => rfl
  | none, some n => rfl

/-- Witness for C5: the panic case and the safe case at concrete inputs. -/
theorem add_login_attempt_contract_example :
    add_login_attempt ⟨[], 0, [], 0⟩ 0 none none none true = none ∧
    (add_login_attempt ⟨[], 0, [], 0⟩ 0 (some 4) none none true).isSome
      = true :=
  ⟨(add_login_attempt_contract ⟨[], 0, [], 0⟩ 0 none true).1,
   (add_login_attempt_contract ⟨[], 0, [], 0⟩ 0 none true).2 (some 4) none
     (Or.inl rfl)⟩

theorem map_eq_self_of_mem {α : Type} (f : α → α) :
    ∀ (l : List α), (∀ x ∈ l, f x = x) → l.map f = l
  | [], _ => rfl
  | x :: xs, h => by
      simp only [List.map_cons, List.cons.injEq]
      exact ⟨h x (List.mem_cons_self x xs),
             map_eq_self_of_mem f xs fun y hy => h y (List.mem_cons_of_mem x hy)⟩

theorem setSuccess_fix {r : LoginAttempt} (h : r.success = true) :
    { r with success := true } = r := by
  cases r
  simp_all

/-- C3: set_login_success is idempotent — when every row carrying the given
attempt id already has success = true, the call leaves the whole store
(attempt rows and sessions alike) unchanged and still returns Ok. -/
theorem set_login_success_idempotent (st : DbState) (id : Nat)
    (h : ∀ r ∈ st.rows, r.id = id → r.success = true) :
    set_login_success st id = (Except.ok (), st) := by
  unfold set_login_success
  refine congrArg (Prod.mk (Except.ok ())) ?_
  have hrows : (st.rows.map fun r =>
      if r.id = id then { r with success := true } else r) = st.rows := by
    refine map_eq_self_of_mem _ st.rows fun r hr => ?_
    by_cases hid : r.id = id
    · rw [if_pos hid]
      exact setSuccess_fix (h r hr hid)
    · simp [hid]
  cases st
  simp_all

/-- Witness for C3: marking an already-successful concrete attempt row. -/
theorem set_login_success_idempotent_example :
    set_login_success ⟨[⟨0, some 1, none, none, true, 0⟩], 1, [], 0⟩ 0 =
      (Except.ok (), ⟨[⟨0, some 1, none, none, true, 0⟩], 1, [], 0⟩) :=
  set_login_success_idempotent ⟨[⟨0, some 1, none, none, true, 0⟩], 1, [], 0⟩ 0
    (by decide)

/-- C10: set_login_success on an attempt id matching no row reports no
error — it returns Ok(()) — and modifies no row at all. -/
theorem set_login_success_unknown_id (st : DbState) (id : Nat)
    (h : ∀ r ∈ st.rows, r.id ≠ id) :
    set_login_success st id = (Except.ok (), st) := by
  unfold set_login_success
  refine congrArg (Prod.mk (Except.ok ())) ?_
  have hrows : (st.rows.map fun r =>
      if r.id = id then { r with success := true } else r) = st.rows := by
    refine map_eq_self_of_mem _ st.rows fun r hr => ?_
    simp [h r hr]
  cases st
  simp_all

/-- Witness for C10: an update keyed by an id absent from the store. -/
theorem set_login_success_unknown_id_example :
    set_login_success ⟨[⟨0, some 1, none, none, false, 0⟩], 1, [], 0⟩ 5 =
      (Except.ok (), ⟨[⟨0, some 1, none, none, false, 0⟩], 1, [], 0⟩) :=
  set_login_success_unknown_id ⟨[⟨0, some 1, none, none, false, 0⟩], 1, [], 0⟩ 5
    (by decide)

theorem mem_get_login_attempts {st : DbState} {uid : Nat} {since : Int}
    {r : LoginAttempt} (h : r ∈ get_login_attempts st uid since) :
    r.user_id = some uid ∧ since < r.attempted_at := by
  have h1 := (List.perm_insertionSort attemptedAtDesc _).mem_iff.mp
    (List.mem_of_mem_take h)
  have h2 := (List.mem_filter.mp h1).2
  have h3 := (List.mem_filter.mp (List.mem_filter.mp h1).1).2
  exact ⟨of_decide_eq_true h2, of_decide_eq_true h3⟩

theorem mem_get_all_login_attempts {st : DbState} {since : Int}
    {r : LoginAttempt} (h : r ∈ get_all_login_attempts st since) :
    since < r.attempted_at := by
  have h1 := (List.perm_insertionSort attemptedAtDesc _).mem_iff.mp
    (List.mem_of_mem_take h)
  exact of_decide_eq_true (List.mem_filter.mp h1).2

/-- C2 (amended): get_login_attempts returns only rows of the given user
with timestamp strictly greater than since, ordered by timestamp descending
(non-strictly: rows sharing a timestamp may appear in either order), and at
most 100 rows even when more matching rows exist; get_all_login_attempts
behaves identically minus the user filter. -/
theorem get_login_attempts_spec (st : DbState) (uid : Nat) (since : Int) :
    (∀ r ∈ get_login_attempts st uid since,
        r.user_id = some uid ∧ since < r.attempted_at) ∧
    (get_login_attempts st uid since).Sorted attemptedAtDesc ∧
    (get_login_attempts st uid since).length ≤ 100 ∧
    (∀ r ∈ get_all_login_attempts st since, since < r.attempted_at) ∧
    (get_all_login_attempts st since).Sorted attemptedAtDesc ∧
    (get_all_login_attempts st since).length ≤ 100 := by
  refine ⟨fun r hr => mem_get_login_attempts hr,
          (List.sorted_insertionSort attemptedAtDesc _).sublist
            (List.take_sublist 100 _),
          List.length_take_le 100 _,
          fun r hr => mem_get_all_login_attempts hr,
          (List.sorted_insertionSort attemptedAtDesc _).sublist
            (List.take_sublist 100 _),
          List.length_take_le 100 _⟩

/-- Witness for C2 at a concrete store, with the membership hypothesis of
the row-shape clause discharged on a concrete returned row. -/
theorem get_login_attempts_spec_example :
    ((⟨0, some 7, none, none, false, 3⟩ : LoginAttempt).user_id = some 7 ∧
      (0 : Int) < (⟨0, some 7, none, none, false, 3⟩ : LoginAttempt).attempted_at) ∧
    (get_login_attempts ⟨[⟨0, some 7, none, none, false, 3⟩], 1, [], 0⟩ 7 0).Sorted
      attemptedAtDesc ∧
    (get_login_attempts ⟨[⟨0, some 7, none, none, false, 3⟩], 1, [], 0⟩ 7 0).length
      ≤ 100 :=
  have h := get_login_attempts_spec ⟨[⟨0, some 7, none, none, false, 3⟩], 1, [], 0⟩ 7 0
  ⟨h.1 ⟨0, some 7, none, none, false, 3⟩ (by decide), h.2.1, h.2.2.1⟩

/-- C2 counterexample: the output need not be STRICTLY descending in the
timestamp — two attempts for the same user recorded at the same instant
are both returned, and no strictly-descending arrangement of them exists. -/
theorem get_login_attempts_not_strictly_descending :
    ¬ (get_login_attempts
        ⟨[⟨0, some 7, none, none, false, 5⟩, ⟨1, some 7, none, none, false, 5⟩],
          2, [], 0⟩ 7 0).Pairwise
      (fun a b => b.attempted_at < a.attempted_at) := by
  intro h
  have heq : get_login_attempts
      ⟨[⟨0, some 7, none, none, false, 5⟩, ⟨1, some 7, none, none, false, 5⟩],
        2, [], 0⟩ 7 0 =
      [⟨0, some 7, none, none, false, 5⟩, ⟨1, some 7, none, none, false, 5⟩] := by
    decide
  rw [heq] at h
  have h5 := List.rel_of_pairwise_cons h
    (List.mem_singleton_self (⟨1, some 7, none, none, false, 5⟩ : LoginAttempt))
  exact absurd h5 (lt_irrefl (5 : Int))

/-- One invocation of a SessionManager operation, with its arguments. -/
inductive Op where
  | addAttempt (now : Int) (user_id : Option Nat)
      (username_or_email : Option String) (remote_address : Option String)
      (success : Bool)
  | setSuccess (login_attempt_id : Nat)
  | getAttempts (user_id : Nat) (since : Int)
  | getAll (since : Int)

/-- Effect of one SessionManager operation on the store.  A panicking
addAttempt call commits nothing; the two queries read without writing. -/
def stepOp (st : DbState) : Op → DbState
  | .addAttempt now uid name addr succ =>
      match add_login_attempt st now uid name addr succ with
      | some (_, st2) => st2
      | none => st
  | .setSuccess id => (set_login_success st id).2
  | .getAttempts _ _ => st
  | .getAll _ => st

/-- Running a sequence of SessionManager operations. -/
def runOps (st : DbState) (ops : List Op) : DbState := ops.foldl stepOp st

/-- The only evolution a stored LoginAttempt row may undergo: every field
except success is fixed, and success may only go from false to true. -/
def evolves (r r2 : LoginAttempt) : Prop :=
  r2.id = r.id ∧ r2.user_id = r.user_id ∧
  r2.username_or_email = r.username_or_email ∧
  r2.remote_address = r.remote_address ∧
  r2.attempted_at = r.attempted_at ∧
  (r.success = true → r2.success = true)

theorem evolves_refl (r : LoginAttempt) : evolves r r :=
  ⟨rfl, rfl, rfl, rfl, rfl, fun h => h⟩

theorem evolves_trans {a b c : LoginAttempt} (h1 : evolves a b)
    (h2 : evolves b c) : evolves a c :=
  ⟨h2.1.trans h1.1, h2.2.1.trans h1.2.1, h2.2.2.1.trans h1.2.2.1,
   h2.2.2.2.1.trans h1.2.2.2.1, h2.2.2.2.2.1.trans h1.2.2.2.2.1,
   fun h => h2.2.2.2.2.2 (h1.2.2.2.2.2 h)⟩

theorem stepOp_preserves_row {st : DbState} {r : LoginAttempt}
    (hr : r ∈ st.rows) (op : Op) :
    ∃ r2 ∈ (stepOp st op).rows, evolves r r2 := by
  match op with
  | .addAttempt now uid name addr succ =>
      refine ⟨r, ?_, evolves_refl r⟩
      unfold stepOp add_login_attempt
      match uid, name with
      | none, none => exact hr
      | some u, nm => exact List.mem_append_left _ hr
      | none, some n => exact List.mem_append_left _ hr
  | .setSuccess id =>
      refine ⟨if r.id = id then { r with success := true } else r, ?_, ?_⟩
      · exact List.mem_map_of_mem _ hr
      · by_cases hid : r.id = id
        · rw [if_pos hid]
          exact ⟨rfl, rfl, rfl, rfl, rfl, fun _ => rfl⟩
        · rw [if_neg hid]
          exact evolves_refl r
  | .getAttempts u s => exact ⟨r, hr, evolves_refl r⟩
  | .getAll s => exact ⟨r, hr, evolves_refl r⟩

/-- C4: across every sequence of SessionManager operations, an existing
attempt row is never removed, no field of it other than success is ever
modified, and its success flag may change only from false to true, never
from true to false. -/
theorem rows_immutable_except_success (st : DbState) (ops : List Op)
    (r : LoginAttempt) (hr : r ∈ st.rows) :
    ∃ r2 ∈ (runOps st ops).rows, evolves r r2 := by
  induction ops generalizing st r with
  | nil => exact ⟨r, hr, evolves_refl r⟩
  | cons op rest ih =>
      obtain ⟨r1, hr1, hev1⟩ := stepOp_preserves_row hr op
      obtain ⟨r2, hr2, hev2⟩ := ih (stepOp st op) r1 hr1
      exact ⟨r2, hr2, evolves_trans hev1 hev2⟩

/-- Witness for C4: a concrete row followed through a concrete operation
sequence that inserts another row and marks the first one successful. -/
theorem rows_immutable_except_success_example :
    ∃ r2 ∈ (runOps ⟨[⟨0, some 1, none, none, false, 0⟩], 1, [], 0⟩
        [Op.addAttempt 2 (some 4) none none true, Op.setSuccess 0,
          Op.getAll 0]).rows,
      evolves ⟨0, some 1, none, none, false, 0⟩ r2 :=
  rows_immutable_except_success ⟨[⟨0, some 1, none, none, false, 0⟩], 1, [], 0⟩
    [Op.addAttempt 2 (some 4) none none true, Op.setSuccess 0, Op.getAll 0]
    ⟨0, some 1, none, none, false, 0⟩ (by decide)

/-- An accepted TCP connection as seen by Server::run; peer_addr can itself
fail, which the loop only logs. -/
structure Conn where
  connId : Nat
  peer_addr : Option String
deriving DecidableEq

/-- The body of the filter_map stage of Server::run applied to one element
of the accept stream: an Ok connection is logged and kept (even when its
peer address is unavailable); an accept error is logged with warn and the
connection attempt is discarded.  Returns the kept connection, if any,
together with the log lines emitted. -/
def accept_conn (c : Except String Conn) : Option Conn × List String :=
  match c with
  | .ok conn =>
      (some conn,
        [match conn.peer_addr with
          | some addr => "Accepted connection from " ++ addr
          | none => "Unable to get peer address"])
  | .error e => (none, ["Error accepting connection: " ++ e])

/-- The filter_map stage run over a whole accept stream, collecting the
accepted connections in order and the log output. -/
def accept_loop : List (Except String Conn) → List Conn × List String
  | [] => ([], [])
  | c :: rest =>
      ((accept_conn c).1.toList ++ (accept_loop rest).1,
        (accept_conn c).2 ++ (accept_loop rest).2)

/-- C7: an accept error anywhere in the connection stream is logged and
only that one connection attempt is discarded — the accepted connections
produced by Server::run are exactly those of the stream with the error
removed, so the listener keeps running and every other connection is
unaffected. -/
theorem accept_error_isolated (xs ys : List (Except String Conn))
    (e : String) :
    (accept_loop (xs ++ Except.error e :: ys)).1 =
      (accept_loop xs).1 ++ (accept_loop ys).1 ∧
    (accept_loop (xs ++ Except.error e :: ys)).2 =
      (accept_loop xs).2 ++
        ("Error accepting connection: " ++ e) :: (accept_loop ys).2 := by
  induction xs with
  | nil => exact ⟨rfl, rfl⟩
  | cons c rest ih =>
      refine ⟨?_, ?_⟩
      · show (accept_conn c).1.toList ++ (accept_loop (rest ++ Except.error e :: ys)).1
            = ((accept_conn c).1.toList ++ (accept_loop rest).1) ++ (accept_loop ys).1
        rw [ih.1, List.append_assoc]
      · show (accept_conn c).2 ++ (accept_loop (rest ++ Except.error e :: ys)).2
            = ((accept_conn c).2 ++ (accept_loop rest).2) ++
                ("Error accepting connection: " ++ e) :: (accept_loop ys).2
        rw [ih.2, List.append_assoc]

/-- The constant PROTOCOL_VERSION of deepwell-rpc/src/api.rs. -/
def PROTOCOL_VERSION : String := "0"

/-- Deepwell::protocol of server.rs: an immediately ready constant. -/
def protocol (_ctx : Nat) : String := PROTOCOL_VERSION

/-- Deepwell::ping of server.rs: an immediately ready constant. -/
def ping (_ctx : Nat) : String := "pong!"

/-- Deepwell::time of server.rs: the current system time as seconds since
the Unix epoch, embedded as the integer clock reading now.  The code calls
duration_since(UNIX_EPOCH).expect(...), which panics — the none result —
exactly when the system clock reads earlier than the epoch. -/
def time (_ctx : Nat) (now : Int) : Option Int :=
  if now < 0 then none else some now

/-- C8 counterexample: the time call is not infallible — on a system clock
set before the Unix epoch its duration_since expect panics. -/
theorem time_panics_before_epoch : time 0 (-1) = none := rfl

/-- C8 (amended): for every invocation context, protocol returns the
protocol version string and ping returns its liveness reply, both
unconditionally; time returns the current server time and succeeds
whenever the system clock is not before the Unix epoch.  None of the three
touch the session manager store. -/
theorem informational_calls (ctx : Nat) (now : Int) :
    protocol ctx = PROTOCOL_VERSION ∧ ping ctx = "pong!" ∧
    (0 ≤ now → time ctx now = some now) := by
  refine ⟨rfl, rfl, fun h => ?_⟩
  unfold time
  rw [if_neg (by omega)]

/-- Witness for C8 at a concrete context and clock reading. -/
theorem informational_calls_example :
    protocol 0 = PROTOCOL_VERSION ∧ ping 0 = "pong!" ∧
    time 0 5 = some 5 :=
  ⟨(informational_calls 0 5).1, (informational_calls 0 5).2.1,
   (informational_calls 0 5).2.2 (by decide)⟩

/-- Modelled from the spec: the body of the Manager routine behind the
login RPC (Server::try_login) is not among the provided sources — only its
tests and the RPC declaration are — so its algorithm follows section 4.1 of
the specification: resolve the identifier through the User Directory
(resolve), verify the credential through the Credential Store (verify,
treated as failure when no user resolved), record exactly one LoginAttempt
row either way, create a Session row if and only if verification
succeeded, and answer the new session identifier on success or the uniform
AuthenticationFailed error on failure. -/
def try_login (resolve : String → Option Nat) (verify : Nat → String → Bool)
    (st : DbState) (now : Int) (username_or_email : String)
    (password : String) (remote_address : Option String) :
    Except Error Nat × DbState :=
  match resolve username_or_email with
  | none =>
      match add_login_attempt st now none (some username_or_email)
          remote_address false with
      | some (_, st2) => (Except.error Error.authenticationFailed, st2)
      | none => (Except.error Error.authenticationFailed, st)
  | some uid =>
      let ok := verify uid password
      match add_login_attempt st now (some uid) (some username_or_email)
          remote_address ok with
      | some (attemptId, st2) =>
          if ok then
            let s : Session :=
              { id := st2.nextSessionId, user_id := uid,
                login_attempt_id := attemptId }
            (Except.ok s.id,
              { st2 with sessions := st2.sessions ++ [s],
                         nextSessionId := st2.nextSessionId + 1 })
          else
            (Except.error Error.authenticationFailed, st2)
      | none => (Except.error Error.authenticationFailed, st)

/-- The login RPC as declared in api.rs: its result type is Result<()>,
so the successful payload is the unit value — whatever session the Manager
created, only () crosses the wire. -/
def login (resolve : String → Option Nat) (verify : Nat → String → Bool)
    (st : DbState) (now : Int) (username_or_email : String)
    (password : String) (remote_address : Option String) :
    Except Error Unit × DbState :=
  ((try_login resolve verify st now username_or_email password
      remote_address).1.map fun _ => (),
   (try_login resolve verify st now username_or_email password
      remote_address).2)

/-- A one-user directory and credential store for concrete runs. -/
def resolveOne : String → Option Nat :=
  fun s => if s = "alice" then some 1 else none

/-- Credential store accepting exactly one secret for that user. -/
def verifyOne : Nat → String → Bool :=
  fun uid pw => decide (uid = 1) && decide (pw = "hunter2")

/-- C9 counterexample: two successful login calls whose new sessions carry
different identifiers (1 in the first store, 2 in the second) produce the
byte-identical RPC result Ok(()) — the declared result type Result<()>
cannot return the new session identifier to the caller, refuting the
claimed Result<SessionId> contract. -/
theorem login_result_carries_no_session_id :
    (login resolveOne verifyOne ⟨[], 0, [], 1⟩ 0 "alice" "hunter2" none).1 =
      Except.ok () ∧
    (login resolveOne verifyOne ⟨[], 0, [], 2⟩ 0 "alice" "hunter2" none).1 =
      Except.ok () ∧
    ((login resolveOne verifyOne ⟨[], 0, [], 1⟩ 0 "alice" "hunter2"
        none).2.sessions.map Session.id) = [1] ∧
    ((login resolveOne verifyOne ⟨[], 0, [], 2⟩ 0 "alice" "hunter2"
        none).2.sessions.map Session.id) = [2] ∧
    ¬ ∃ recover : Except Error Unit → Nat,
        recover (login resolveOne verifyOne ⟨[], 0, [], 1⟩ 0 "alice"
          "hunter2" none).1 = 1 ∧
        recover (login resolveOne verifyOne ⟨[], 0, [], 2⟩ 0 "alice"
          "hunter2" none).1 = 2 := by
  refine ⟨rfl, rfl, rfl, rfl, ?_⟩
  rintro ⟨recover, h1, h2⟩
  have e1 : (login resolveOne verifyOne ⟨[], 0, [], 1⟩ 0 "alice" "hunter2"
      none).1 = Except.ok () := rfl
  have e2 : (login resolveOne verifyOne ⟨[], 0, [], 2⟩ 0 "alice" "hunter2"
      none).1 = Except.ok () := rfl
  rw [e1] at h1
  rw [e2] at h2
  rw [h1] at h2
  exact absurd h2 (by decide)

/-- C9 (amended): a login call keyed by a username-or-email string returns
Ok(()) on success — a new Session row for the resolved user is recorded in
the store, but its identifier is not conveyed through the Result<()> RPC
interface — and returns the uniform AuthenticationFailed error, creating
no session, on failure (unknown identifier or wrong credential alike). -/
theorem login_success_and_failure (resolve : String → Option Nat)
    (verify : Nat → String → Bool) (st : DbState) (now : Int)
    (name pw : String) (addr : Option String) :
    (∀ uid, resolve name = some uid → verify uid pw = true →
      (login resolve verify st now name pw addr).1 = Except.ok () ∧
      ∃ s : Session,
        (login resolve verify st now name pw addr).2.sessions =
          st.sessions ++ [s] ∧ s.user_id = uid) ∧
    ((resolve name = none ∨
        ∃ uid, resolve name = some uid ∧ verify uid pw = false) →
      (login resolve verify st now name pw addr).1 =
        Except.error Error.authenticationFailed ∧
      (login resolve verify st now name pw addr).2.sessions =
        st.sessions) := by
  constructor
  · intro uid hres hver
    refine ⟨?_, ⟨⟨st.nextSessionId, uid, st.nextId⟩, ?_, rfl⟩⟩ <;>
      simp [login, try_login, add_login_attempt, Except.map, hres, hver]
  · intro h
    rcases h with hnone | ⟨uid, hres, hver⟩
    · constructor <;> simp [login, try_login, add_login_attempt, Except.map, hnone]
    · constructor <;> simp [login, try_login, add_login_attempt, Except.map, hres, hver]

/-- Witness for C9 (amended): the success clause at the concrete one-user
directory, and the failure clause at an unknown identifier. -/
theorem login_success_and_failure_example :
    ((login resolveOne verifyOne ⟨[], 0, [], 1⟩ 0 "alice" "hunter2" none).1 =
        Except.ok () ∧
      ∃ s : Session,
        (login resolveOne verifyOne ⟨[], 0, [], 1⟩ 0 "alice" "hunter2"
            none).2.sessions = ([] : List Session) ++ [s] ∧
        s.user_id = 1) ∧
    ((login resolveOne verifyOne ⟨[], 0, [], 1⟩ 0 "nobody" "x" none).1 =
        Except.error Error.authenticationFailed ∧
      (login resolveOne verifyOne ⟨[], 0, [], 1⟩ 0 "nobody" "x"
          none).2.sessions = ([] : List Session)) :=
  ⟨(login_success_and_failure resolveOne verifyOne ⟨[], 0, [], 1⟩ 0 "alice"
      "hunter2" none).1 1 (by decide) (by decide),
   (login_success_and_failure resolveOne verifyOne ⟨[], 0, [], 1⟩ 0 "nobody"
      "x" none).2 (Or.inl (by decide))⟩

end Deepwell
